import Mathlib

/-!
Verification of the coverage-and-attribution engine of the dataton repository.

The development shallowly embeds the Python sources:
  * `src/alt.py` — `extract_zone_code` (zone key normalization);
  * `src/data_processing/age_groups.py` — `calculate_age_group_percentages`
    (population apportionment);
  * `src/data_processing/station_coverage.py` — `calculate_station_coverage`,
    `calculate_area_coverage`, `create_geodesic_buffer`;
  * `src/data_processing/data_loader.py` — `get_areas_within_radius`
    (memoization cache with FIFO eviction).

Python strings are embedded as `List Char`; Python ints/floats of the
aggregation arithmetic as `ℚ` (exact arithmetic; the claims concern the
summation structure, not floating-point rounding).  Calls into external
geometry libraries (shapely, pyproj) are embedded as explicit oracle inputs
carrying the values those calls return, or, where a claim is about the
mathematical behaviour of the library itself, as a measure-theoretic /
real-analytic model marked `Modelled from the spec:` in its doc comment.
-/

namespace Dataton

/-- Python strings are sequences of characters. -/
abbrev PyStr := List Char

/-! ## Python string primitives used by `extract_zone_code` (src/alt.py) -/

/-- Whitespace as recognised by Python `str.strip()` (the ASCII whitespace
characters that occur in the data at hand). -/
def pyIsSpace (c : Char) : Bool :=
  c = ' ' || c = '\t' || c = '\n' || c = '\r'

/-- Python `str.strip()`: drop leading and trailing whitespace. -/
def pyStrip (s : PyStr) : PyStr :=
  ((s.dropWhile pyIsSpace).reverse.dropWhile pyIsSpace).reverse

/-- Python `str.split(sep)` for a one-character separator: the list of
(possibly empty) chunks between occurrences of `sep`.  Always nonempty,
e.g. `"".split('-') == ['']` and `"a--b".split('-') == ['a','','b']`. -/
def pySplitOn (sep : Char) : PyStr → List PyStr
  | [] => [[]]
  | c :: rest =>
    let r := pySplitOn sep rest
    if c = sep then [] :: r
    else
      match r with
      | [] => [[c]]
      | h :: t => (c :: h) :: t

/-- Python `xs[-1]` on the (always nonempty) result of `split`. -/
def pyLast (l : List PyStr) : PyStr := l.getLastD []

/-- Value of a decimal digit character, `none` for a non-digit. -/
def pyDigitVal (c : Char) : Option Nat :=
  if c.isDigit then some (c.toNat - 48) else none

/-- Accumulate the decimal value of a digit string; `none` on the first
non-digit character. -/
def pyDigitsAux : Nat → PyStr → Option Nat
  | acc, [] => some acc
  | acc, c :: cs =>
    match pyDigitVal c with
    | some d => pyDigitsAux (10 * acc + d) cs
    | none => none

/-- Drop one optional leading `+` sign, as Python `int()` accepts. -/
def stripPlus : PyStr → PyStr
  | '+' :: r => r
  | t => t

/-- Python `int(s)` restricted to the token shapes reachable in
`extract_zone_code`: the argument is a chunk of a `split('-')`, so it never
contains a minus sign; after stripping, an optional `+` sign followed by a
nonempty run of decimal digits parses, anything else raises `ValueError`
(embedded as `none`). -/
def pyInt (s : PyStr) : Option Nat :=
  let t := stripPlus (pyStrip s)
  if t = [] then none else pyDigitsAux 0 t

/-- Digit character of `d < 10`, as Python `str(int)` produces. -/
def digitChar (d : Nat) : Char := Char.ofNat (48 + d)

/-- Fuel-driven core of Python `str(n)` for a non-negative int: most
significant digit first. -/
def natToDigitsAux : Nat → Nat → PyStr → PyStr
  | 0, _, acc => acc
  | fuel + 1, n, acc =>
    if n < 10 then digitChar n :: acc
    else natToDigitsAux fuel (n / 10) (digitChar (n % 10) :: acc)

/-- Python `str(n)` for a non-negative int: standard decimal notation,
no padding, no sign. -/
def natToDigits (n : Nat) : PyStr := natToDigitsAux (n + 1) n []

/-- Embedding of `extract_zone_code` from `src/alt.py`:

```python
def extract_zone_code(label):
    try:
        code = label.strip().split('-')[-1].strip()
        return str(int(code))
    except:
        return None
```

The only statement that can raise is `int(code)`; its failure is the `none`
branch of `pyInt`. -/
def extract_zone_code (label : PyStr) : Option PyStr :=
  (pyInt (pyStrip (pyLast (pySplitOn '-' (pyStrip label))))).map natToDigits

/-! ## Population apportionment
(`calculate_age_group_percentages`, src/data_processing/age_groups.py) -/

/-- One row of `habitant_2024.csv` as the code reads it: zone key
(`smasvaedi`, compared after `astype(str)`), age cohort (`aldursflokkur`)
and count (`fjoldi`). -/
structure PopulationRecord where
  smasvaedi : PyStr
  aldursflokkur : PyStr
  fjoldi : ℚ
deriving DecidableEq

/-- One element of the list returned by `calculate_station_coverage`:
`{"id": area_id, "area_coverage_percent": area_coverage}`. -/
structure CoverageEntry where
  id : PyStr
  area_coverage_percent : ℚ
deriving DecidableEq

/-- The row filter `population_df['smasvaedi'].astype(str) == str(area_id)`
of `calculate_age_group_percentages`: a raw string comparison of the two
keys — neither side passes through `extract_zone_code`. -/
def area_pop (table : List PopulationRecord) (area_id : PyStr) : List PopulationRecord :=
  table.filter (fun r => decide (r.smasvaedi = area_id))

/-- `area_pop[area_pop['aldursflokkur'] == age_group]['fjoldi'].sum()`:
the cohort count of one zone under the code's raw-key join. -/
def zoneCohortSum (table : List PopulationRecord) (area_id g : PyStr) : ℚ :=
  (((area_pop table area_id).filter (fun r => decide (r.aldursflokkur = g))).map
    (fun r => r.fjoldi)).sum

/-- The first loop of `calculate_age_group_percentages`:
`population_df[population_df['aldursflokkur'] == age_group]['fjoldi'].sum()`
over the ENTIRE table, not restricted to covered zones. -/
def cohortTotal (table : List PopulationRecord) (g : PyStr) : ℚ :=
  ((table.filter (fun r => decide (r.aldursflokkur = g))).map (fun r => r.fjoldi)).sum

/-- The second loop of `calculate_age_group_percentages` for one cohort slot
`result[age_group]['within_radius']`: iterate the covered areas in order and
accumulate `age_pop * (area['area_coverage_percent'] / 100)`.  Slots of
distinct cohorts are updated independently, so the dict-of-dicts is embedded
one cohort slot at a time. -/
def cohortWithinRadius (covered : List CoverageEntry) (table : List PopulationRecord)
    (g : PyStr) : ℚ :=
  covered.foldl
    (fun acc area =>
      acc + zoneCohortSum table area.id g * (area.area_coverage_percent / 100)) 0

/-- The per-cohort entry `{'total': …, 'within_radius': …}` of the result of
`calculate_age_group_percentages`. -/
structure AgeGroupStat where
  total : ℚ
  within_radius : ℚ
deriving DecidableEq

/-- The apportionment core of `calculate_age_group_percentages`, for one
requested cohort: the coverage list is its `covered_areas` input (the code
obtains it from `calculate_station_coverage`), the table its
`population_df`. -/
def calculate_age_group_percentages (covered : List CoverageEntry)
    (table : List PopulationRecord) (g : PyStr) : AgeGroupStat :=
  { total := cohortTotal table g
    within_radius := cohortWithinRadius covered table g }

/-- Spec-side formula for `total` (section 4.4 of the spec): sum of count
over all PopulationRecords with that cohort, across the entire table. -/
def specTotal (table : List PopulationRecord) (g : PyStr) : ℚ :=
  (table.map (fun r => if r.aldursflokkur = g then r.fjoldi else 0)).sum

/-- Spec-side formula for `within_radius` (section 4.4 of the spec): sum over
coverageResults of (sum of count for that zone and cohort) multiplied by
coverage_percent/100. -/
def specWithin (covered : List CoverageEntry) (table : List PopulationRecord)
    (g : PyStr) : ℚ :=
  (covered.map (fun a => zoneCohortSum table a.id g * (a.area_coverage_percent / 100))).sum

/-! ## Station coverage
(`calculate_station_coverage`, src/data_processing/station_coverage.py)

The function drives shapely/pyproj through a fixed control flow; the values
the library calls return for one area are embedded as an explicit record of
oracle outcomes, so that the loop, the per-area exception handling and the
percentage arithmetic are the code under verification. -/

/-- Outcomes of the geometry-library calls for one small area of the loop
body of `calculate_station_coverage`:
  * `polygonOk` — `Polygon(coordinates)` (plus `make_valid` when invalid)
    succeeds; a raise is caught by the per-area `except` and the area is
    skipped;
  * `intersectsBuffer` — result of `area_geom.intersects(station_buffer)`;
  * `projectable` — `calculate_area_coverage`'s `transform_geometry` supports
    the geometry type of both operands (it raises `ValueError` for anything
    but a `Polygon`, e.g. after `make_valid` returned a `MultiPolygon`;
    caught by the per-area `except`);
  * `interArea`, `totalArea` — the two planar areas `calculate_area_coverage`
    returns: `geom1_proj.intersection(geom2_proj).area` and
    `geom1_proj.area`. -/
structure GeomInfo where
  polygonOk : Bool
  intersectsBuffer : Bool
  projectable : Bool
  interArea : ℚ
  totalArea : ℚ
deriving DecidableEq

/-- One element of the `small_areas` input of `calculate_station_coverage`,
in the shapes the loop distinguishes: a bare string (skipped by the
`isinstance(area, str)` test), a dict whose `"geometry"` is missing or falsy
(skipped by `if not coordinates`), or a dict with an id (`area.get("id")`,
`none` when the key is absent) and a geometry. -/
inductive AreaInput where
  | strId (s : PyStr)
  | noGeom (id : Option PyStr)
  | withGeom (id : Option PyStr) (g : GeomInfo)
deriving DecidableEq

/-- An output entry of `calculate_station_coverage`; `id` is the raw
`area.get("id")`. -/
structure RawCoverageEntry where
  id : Option PyStr
  area_coverage_percent : ℚ
deriving DecidableEq

/-- The loop body of `calculate_station_coverage` for one area: `none` means
the area contributes no output entry (skipped, failed, or not intersecting);
`some` is the appended dict with
`(intersection_area / total_area) * 100 if total_area > 0 else 0`. -/
def processArea : AreaInput → Option RawCoverageEntry
  | .strId _ => none
  | .noGeom _ => none
  | .withGeom id g =>
    if !g.polygonOk then none
    else if !g.intersectsBuffer then none
    else if !g.projectable then none
    else
      some
        { id := id
          area_coverage_percent :=
            if 0 < g.totalArea then g.interArea / g.totalArea * 100 else 0 }

/-- Top-level query parameters of `calculate_station_coverage`: the station
coordinates `(lon, lat)` and the radius in meters.  The code never inspects
their numeric values itself — they are only passed on to
`create_geodesic_buffer`. -/
structure StationQuery where
  lon : ℚ
  lat : ℚ
  radius : ℚ
deriving DecidableEq

/-- Embedding of `calculate_station_coverage`.  `bufferRaises q` records
whether the external pyproj/shapely pipeline inside `create_geodesic_buffer`
raises for the query `q` (the buffer construction itself contains no
validation of radius or center).  The whole body sits in a
`try … except: return []`, so a raise anywhere before the loop yields the
empty list and a per-area raise merely skips that area (`continue`). -/
def calculate_station_coverage (bufferRaises : StationQuery → Bool)
    (q : StationQuery) (small_areas : List AreaInput) : List RawCoverageEntry :=
  if bufferRaises q then []
  else small_areas.filterMap processArea

/-- An area the loop body fails on and skips via its `except … continue`:
polygon construction/repair raised, or the geometry type is unsupported by
`transform_geometry` (projection error). -/
def areaProcessingFails : AreaInput → Bool
  | .strId _ => false
  | .noGeom _ => false
  | .withGeom _ g => !g.polygonOk || (g.intersectsBuffer && !g.projectable)

/-! ## Memoization cache
(`get_areas_within_radius`, src/data_processing/data_loader.py)

`self._affected_areas_cache` is a Python dict, which preserves insertion
order; it is embedded as an insertion-ordered association list.  Keys are
the strings `f"{point.wkt}_{radius}"` of `_get_cache_key`; the claims only
depend on their decidable equality, so the key and value types are
parameters. -/

variable {K V : Type} [DecidableEq K]

/-- Dict membership test `cache_key in self._affected_areas_cache` plus the
read `self._affected_areas_cache[cache_key]`. -/
def cacheLookup (c : List (K × V)) (k : K) : Option V :=
  (c.find? (fun p => decide (p.1 = k))).map (fun p => p.2)

/-- The cache transition of one `get_areas_within_radius` call with key `k`
whose freshly computed result is `v`: on a hit the cache is unchanged; on a
miss the result is appended (dict insertion order), and if the size then
exceeds 100 the first 50 keys — `list(cache.keys())[:50]`, the oldest — are
deleted. -/
def get_areas_within_radius (c : List (K × V)) (k : K) (v : V) : List (K × V) :=
  match cacheLookup c k with
  | some _ => c
  | none =>
    let c1 := c ++ [(k, v)]
    if 100 < c1.length then c1.drop 50 else c1

/-- The cache contents after a sequence of queries, starting from the empty
cache of `DataLoader.__init__`. -/
def runQueries (qs : List (K × V)) : List (K × V) :=
  qs.foldl (fun c q => get_areas_within_radius c q.1 q.2) []

/-! ## Geometry-library models for the area and buffer claims
(`calculate_area_coverage` and `create_geodesic_buffer`,
src/data_processing/station_coverage.py)

These two claims are about the mathematical behaviour of the planar
geometry kernel and of the azimuthal-equidistant projection, not about
control flow, so the regions and maps are modelled analytically. -/

open MeasureTheory in
/-- Embedding of `calculate_area_coverage`: a projected planar geometry is a
subset of the plane and shapely's planar `.area` is Lebesgue measure.
`laea lat` is the local equal-area projection transformer the code builds
for the reference latitude `lat` (and the subject's centroid longitude);
both geometries are projected through it, and the function returns
`(geom1_proj.intersection(geom2_proj).area, geom1_proj.area)`. -/
noncomputable def calculate_area_coverage (laea : ℚ → (ℝ × ℝ → ℝ × ℝ))
    (lat : ℚ) (geom1 geom2 : Set (ℝ × ℝ)) : ENNReal × ENNReal :=
  (volume ((laea lat '' geom1) ∩ (laea lat '' geom2)), volume (laea lat '' geom1))

/-- One vertex of the circle `create_geodesic_buffer` builds in projected
coordinates: `(radius_meters*np.cos(θ), radius_meters*np.sin(θ))`, with `c`
and `s` the cosine and sine of the vertex's angle. -/
def circlePoint (radius c s : ℝ) : ℝ × ℝ := (radius * c, radius * s)

/-- Modelled from the spec: the inverse azimuthal-equidistant transformer
(`unproject`, external pyproj code) "preserves true distance from the center
point in all directions" (spec section 4.1), so the true geodesic distance
from the buffer center to the unprojection of a planar point equals that
point's distance from the projected origin. -/
noncomputable def geodesicDistToCenter (p : ℝ × ℝ) : ℝ :=
  Real.sqrt (p.1 ^ 2 + p.2 ^ 2)

/-! ## Side conditions and sample inputs -/

/-- The planar-geometry fact the external kernel guarantees for the two
areas `calculate_area_coverage` returns for one small area: the
intersection's area is non-negative and at most the subject's own area
(the intersection is a subset of the projected subject polygon). -/
def areaBound : AreaInput → Bool
  | .withGeom _ g => decide (0 ≤ g.interArea) && decide (g.interArea ≤ g.totalArea)
  | _ => true

/-- Sample small-area inputs: a half-covered area and a degenerate area
whose projected total area is 0. -/
def sampleAreas : List AreaInput :=
  [AreaInput.withGeom (some ['1']) ⟨true, true, true, 1, 2⟩,
   AreaInput.withGeom (some ['2']) ⟨true, true, true, 0, 0⟩]

/-- Sample small-area input list with exactly one well-behaved area. -/
def oneGoodArea : List AreaInput :=
  [AreaInput.withGeom (some ['1']) ⟨true, true, true, 1, 2⟩]

/-- A full cache: 100 entries keyed 0..99 in insertion order. -/
def sampleCache : List (ℕ × ℕ) := (List.range 100).map (fun i => (i, i))

/-! ## Lemmas on the zone-key normalizer -/

example : extract_zone_code "Einhverstaður - 0042".toList = some "42".toList := by decide
example : extract_zone_code "0042".toList = some "42".toList := by decide
example : extract_zone_code "abc".toList = none := by decide
example : extract_zone_code "Einhver svæði - 0007".toList = some "7".toList := by decide

lemma natToDigitsAux_eq (n : ℕ) :
    ∀ fuel acc, n < fuel → natToDigitsAux fuel n acc = natToDigits n ++ acc := by
  induction n using Nat.strong_induction_on with
  | _ n ih =>
    intro fuel acc hfuel
    match fuel with
    | 0 => omega
    | f + 1 =>
      by_cases h10 : n < 10
      · simp [natToDigitsAux, natToDigits, h10]
      · have hdiv : n / 10 < n := Nat.div_lt_self (by omega) (by omega)
        have hf : n / 10 < f := by omega
        have hn : n / 10 < n + 1 := by omega
        simp only [natToDigitsAux, h10, if_false, natToDigits]
        rw [ih (n / 10) hdiv f _ hf, ih (n / 10) hdiv n _ (by omega),
          List.append_assoc]
        simp

lemma natToDigits_eq (n : ℕ) :
    natToDigits n =
      if n < 10 then [digitChar n]
      else natToDigits (n / 10) ++ [digitChar (n % 10)] := by
  by_cases h10 : n < 10
  · rw [if_pos h10]
    simp [natToDigits, natToDigitsAux, h10]
  · rw [if_neg h10]
    have h1 : natToDigits n = natToDigitsAux n (n / 10) [digitChar (n % 10)] := by
      simp [natToDigits, natToDigitsAux, h10]
    have hdiv : n / 10 < n := Nat.div_lt_self (by omega) (by omega)
    rw [h1, natToDigitsAux_eq (n / 10) n _ (by omega)]

lemma natToDigits_ne_nil (n : ℕ) : natToDigits n ≠ [] := by
  rw [natToDigits_eq]
  split
  · simp
  · simp

lemma natToDigits_chars (n : ℕ) :
    ∀ c ∈ natToDigits n, ∃ d, d < 10 ∧ c = digitChar d := by
  induction n using Nat.strong_induction_on with
  | _ n ih =>
    intro c hc
    rw [natToDigits_eq] at hc
    by_cases h10 : n < 10
    · rw [if_pos h10] at hc
      simp only [List.mem_singleton] at hc
      exact ⟨n, h10, hc⟩
    · rw [if_neg h10] at hc
      rcases List.mem_append.mp hc with h | h
      · exact ih (n / 10) (Nat.div_lt_self (by omega) (by omega)) c h
      · simp only [List.mem_singleton] at h
        exact ⟨n % 10, Nat.mod_lt _ (by omega), h⟩

lemma digitChar_not_space {d : ℕ} (h : d < 10) : pyIsSpace (digitChar d) = false := by
  interval_cases d <;> decide

lemma digitChar_ne_plus {d : ℕ} (h : d < 10) : digitChar d ≠ '+' := by
  interval_cases d <;> decide

lemma digitChar_ne_dash {d : ℕ} (h : d < 10) : digitChar d ≠ '-' := by
  interval_cases d <;> decide

lemma digitChar_val {d : ℕ} (h : d < 10) : pyDigitVal (digitChar d) = some d := by
  interval_cases d <;> decide

lemma dropWhile_eq_self {p : Char → Bool} {l : PyStr}
    (h : ∀ c ∈ l, p c = false) : l.dropWhile p = l := by
  cases l with
  | nil => rfl
  | cons c t => simp [List.dropWhile_cons, h c (by simp)]

lemma pyStrip_eq_self {l : PyStr} (h : ∀ c ∈ l, pyIsSpace c = false) :
    pyStrip l = l := by
  unfold pyStrip
  rw [dropWhile_eq_self h, dropWhile_eq_self (by intro c hc; exact h c (by simpa using hc)),
    List.reverse_reverse]

lemma pySplitOn_no_sep {sep : Char} {l : PyStr} (h : ∀ c ∈ l, c ≠ sep) :
    pySplitOn sep l = [l] := by
  induction l with
  | nil => rfl
  | cons c t ih =>
    have hc : ¬(c = sep) := h c (by simp)
    have ht : pySplitOn sep t = [t] := ih (fun x hx => h x (by simp [hx]))
    simp [pySplitOn, hc, ht]

lemma stripPlus_cons {c : Char} {r : PyStr} (h : c ≠ '+') :
    stripPlus (c :: r) = c :: r := by
  unfold stripPlus
  split
  · rename_i heq
    injection heq with h1 _
    exact absurd h1 h
  · rfl

lemma pyDigitsAux_append (xs : PyStr) :
    ∀ ys acc, pyDigitsAux acc (xs ++ ys) =
      match pyDigitsAux acc xs with
      | some a => pyDigitsAux a ys
      | none => none := by
  induction xs with
  | nil => intro ys acc; rfl
  | cons c t ih =>
    intro ys acc
    simp only [List.cons_append, pyDigitsAux]
    cases pyDigitVal c with
    | some d => exact ih ys (10 * acc + d)
    | none => rfl

lemma pyDigitsAux_natToDigits (n : ℕ) :
    ∀ acc, pyDigitsAux acc (natToDigits n) =
      some (acc * 10 ^ (natToDigits n).length + n) := by
  induction n using Nat.strong_induction_on with
  | _ n ih =>
    intro acc
    rw [natToDigits_eq]
    by_cases h10 : n < 10
    · rw [if_pos h10]
      simp only [pyDigitsAux, digitChar_val h10, List.length_singleton, pow_one]
      congr 2
      ring
    · rw [if_neg h10]
      have hdiv : n / 10 < n := Nat.div_lt_self (by omega) (by omega)
      rw [pyDigitsAux_append]
      rw [ih (n / 10) hdiv acc]
      simp only [pyDigitsAux, digitChar_val (Nat.mod_lt n (by omega)), List.length_append,
        List.length_singleton]
      congr 1
      have hmod : 10 * (n / 10) + n % 10 = n := Nat.div_add_mod n 10
      ring_nf
      omega

lemma pyInt_natToDigits (n : ℕ) : pyInt (natToDigits n) = some n := by
  have hchars := natToDigits_chars n
  have hstrip : pyStrip (natToDigits n) = natToDigits n := by
    apply pyStrip_eq_self
    intro c hc
    obtain ⟨d, hd, rfl⟩ := hchars c hc
    exact digitChar_not_space hd
  have hplus : stripPlus (natToDigits n) = natToDigits n := by
    obtain ⟨c, t, hct⟩ := List.exists_cons_of_ne_nil (natToDigits_ne_nil n)
    rw [hct]
    obtain ⟨d, hd, rfl⟩ := hchars c (by rw [hct]; simp)
    exact stripPlus_cons (digitChar_ne_plus hd)
  unfold pyInt
  rw [hstrip, hplus, if_neg (natToDigits_ne_nil n), pyDigitsAux_natToDigits]
  simp

lemma extract_zone_code_natToDigits (n : ℕ) :
    extract_zone_code (natToDigits n) = some (natToDigits n) := by
  have hchars := natToDigits_chars n
  have hnospace : ∀ c ∈ natToDigits n, pyIsSpace c = false := by
    intro c hc
    obtain ⟨d, hd, rfl⟩ := hchars c hc
    exact digitChar_not_space hd
  have hstrip : pyStrip (natToDigits n) = natToDigits n := pyStrip_eq_self hnospace
  have hsplit : pySplitOn '-' (natToDigits n) = [natToDigits n] := by
    apply pySplitOn_no_sep
    intro c hc
    obtain ⟨d, hd, rfl⟩ := hchars c hc
    exact digitChar_ne_dash hd
  have hlast : pyLast [natToDigits n] = natToDigits n := rfl
  unfold extract_zone_code
  rw [hstrip, hsplit, hlast, hstrip, pyInt_natToDigits]
  rfl

/-! ## Lemmas on the apportionment sums -/

lemma foldl_add_eq_sum {α : Type} (f : α → ℚ) :
    ∀ (l : List α) (a : ℚ), l.foldl (fun acc x => acc + f x) a = a + (l.map f).sum
  | [], a => by simp
  | x :: t, a => by
    simp only [List.foldl_cons, List.map_cons, List.sum_cons]
    rw [foldl_add_eq_sum f t (a + f x)]
    ring

lemma cohortTotal_eq_specTotal (table : List PopulationRecord) (g : PyStr) :
    cohortTotal table g = specTotal table g := by
  unfold cohortTotal specTotal
  induction table with
  | nil => rfl
  | cons r t ih =>
    by_cases hp : r.aldursflokkur = g <;> simp [List.filter_cons, hp, ih]

lemma cohortWithinRadius_eq_specWithin (covered : List CoverageEntry)
    (table : List PopulationRecord) (g : PyStr) :
    cohortWithinRadius covered table g = specWithin covered table g := by
  unfold cohortWithinRadius specWithin
  rw [foldl_add_eq_sum]
  simp

/-! ## Claim theorems -/

/-- C1: for every coverage result list and population table,
`calculate_age_group_percentages` computes, for a requested cohort, `total`
as the sum of `fjoldi` for that cohort over the ENTIRE population table (not
restricted to covered zones), and `within_radius` as the sum over the
coverage results of (the zone's count for that cohort) multiplied by
`coverage_percent/100`; in particular two affected zones with coverage 100%
and 50% and cohort counts 40 and 30 yield `within_radius = 55` while `total`
is the citywide 500. -/
theorem C1_apportionment_formula :
    (∀ (covered : List CoverageEntry) (table : List PopulationRecord) (g : PyStr),
       calculate_age_group_percentages covered table g =
         { total := specTotal table g, within_radius := specWithin covered table g }) ∧
    calculate_age_group_percentages
        [⟨['1'], 100⟩, ⟨['2'], 50⟩]
        [⟨['1'], "10-14 ára".toList, 40⟩,
         ⟨['2'], "10-14 ára".toList, 30⟩,
         ⟨['9'], "10-14 ára".toList, 430⟩]
        ("10-14 ára".toList) =
      { total := 500, within_radius := 55 } := by
  constructor
  · intro covered table g
    unfold calculate_age_group_percentages
    rw [cohortTotal_eq_specTotal, cohortWithinRadius_eq_specWithin]
  · simp [calculate_age_group_percentages, cohortTotal, cohortWithinRadius,
      zoneCohortSum, area_pop]
    norm_num

/-- C2 counterexample: both the label `"Einhverstaður - 0042"` and the bare
string `"0042"` normalize to `"42"`, yet the join of
`calculate_age_group_percentages` does NOT pass its keys through this
normalization: it compares raw strings
(`population_df['smasvaedi'].astype(str) == str(area_id)`), so a population
record keyed `"0042"` contributes nothing for a coverage entry whose id is
the canonical `"42"` — the two inputs do not join to the same record, which
refutes the claim that both sides of the join are normalized before
comparison. -/
theorem C2_counterexample :
    extract_zone_code ("Einhverstaður - 0042".toList) = some ("42".toList) ∧
    extract_zone_code ("0042".toList) = some ("42".toList) ∧
    area_pop [⟨"0042".toList, "10-14 ára".toList, 30⟩] ("42".toList) = [] ∧
    zoneCohortSum [⟨"0042".toList, "10-14 ára".toList, 30⟩] ("42".toList)
      ("10-14 ára".toList) = 0 := by
  exact ⟨by decide, by decide, by simp [area_pop], by simp [zoneCohortSum, area_pop]⟩

/-- C2 amended: zone key normalization maps `"Einhverstaður - 0042"` to
`"42"` and `"0042"` to `"42"`; but the coverage-to-population join of
`calculate_age_group_percentages` compares raw stringified keys without
normalizing either side, so only an exactly equal raw key joins: a record
keyed `"42"` matches coverage id `"42"` while a record keyed `"0042"` does
not. -/
theorem C2_amended_raw_join :
    extract_zone_code ("Einhverstaður - 0042".toList) = some ("42".toList) ∧
    extract_zone_code ("0042".toList) = some ("42".toList) ∧
    zoneCohortSum [⟨"42".toList, "10-14 ára".toList, 30⟩] ("42".toList)
      ("10-14 ára".toList) = 30 ∧
    zoneCohortSum [⟨"0042".toList, "10-14 ára".toList, 30⟩] ("42".toList)
      ("10-14 ára".toList) = 0 := by
  exact ⟨by decide, by decide, by simp [zoneCohortSum, area_pop],
    by simp [zoneCohortSum, area_pop]⟩

/-- C8: zone key normalization is idempotent — whenever `extract_zone_code`
accepts an input `x` (returns `some y` rather than `None`), applying it to
its own output returns that output unchanged. -/
theorem C8_normalize_idempotent (x y : PyStr)
    (h : extract_zone_code x = some y) : extract_zone_code y = some y := by
  unfold extract_zone_code at h
  obtain ⟨n, _, rfl⟩ := Option.map_eq_some'.mp h
  exact extract_zone_code_natToDigits n

/-- C8 witness: `extract_zone_code` accepts `"0042"` with output `"42"`, and
the theorem yields `extract_zone_code "42" = some "42"`. -/
theorem C8_witness :
    extract_zone_code ("0042".toList) = some ("42".toList) ∧
    extract_zone_code ("42".toList) = some ("42".toList) :=
  ⟨by decide, C8_normalize_idempotent ("0042".toList) ("42".toList) (by decide)⟩

/-- C9: apportionment is invariant to the order of the coverage results —
for every population table, permuting the coverage result list changes
neither `total` nor `within_radius` of any cohort (exact over the rational
arithmetic of the embedding). -/
theorem C9_apportion_perm_invariant (covered₁ covered₂ : List CoverageEntry)
    (h : covered₁.Perm covered₂) (table : List PopulationRecord) (g : PyStr) :
    calculate_age_group_percentages covered₁ table g =
      calculate_age_group_percentages covered₂ table g := by
  unfold calculate_age_group_percentages
  have hw : cohortWithinRadius covered₁ table g = cohortWithinRadius covered₂ table g := by
    rw [cohortWithinRadius_eq_specWithin, cohortWithinRadius_eq_specWithin]
    exact (h.map _).sum_eq
  rw [hw]

/-- C9 witness: swapping the two coverage entries of a concrete query leaves
the cohort statistics unchanged. -/
theorem C9_witness :
    calculate_age_group_percentages
        [⟨['1'], 100⟩, ⟨['2'], 50⟩]
        [⟨['1'], "10-14 ára".toList, 40⟩, ⟨['2'], "10-14 ára".toList, 30⟩]
        ("10-14 ára".toList) =
      calculate_age_group_percentages
        [⟨['2'], 50⟩, ⟨['1'], 100⟩]
        [⟨['1'], "10-14 ára".toList, 40⟩, ⟨['2'], "10-14 ára".toList, 30⟩]
        ("10-14 ára".toList) :=
  C9_apportion_perm_invariant _ _
    (List.Perm.swap ⟨['2'], 50⟩ ⟨['1'], 100⟩ []) _ _

/-- C3: every entry of the output of `calculate_station_coverage` has its
`area_coverage_percent` in `[0, 100]` (given the planar-geometry fact that
the intersection area is non-negative and at most the subject area), and an
area whose projected total area is 0 — but which intersects the buffer and
processes without error — is still reported as touched, with percent 0,
rather than dropped. -/
theorem C3_coverage_percent_in_range (bufferRaises : StationQuery → Bool)
    (q : StationQuery) (areas : List AreaInput)
    (hbound : ∀ a ∈ areas, areaBound a = true) :
    (∀ e ∈ calculate_station_coverage bufferRaises q areas,
       0 ≤ e.area_coverage_percent ∧ e.area_coverage_percent ≤ 100) ∧
    (∀ (id : Option PyStr) (g : GeomInfo),
       AreaInput.withGeom id g ∈ areas → bufferRaises q = false →
       g.polygonOk = true → g.intersectsBuffer = true → g.projectable = true →
       g.totalArea = 0 →
       ({ id := id, area_coverage_percent := 0 } : RawCoverageEntry) ∈
         calculate_station_coverage bufferRaises q areas) := by
  constructor
  · intro e he
    unfold calculate_station_coverage at he
    by_cases hb : bufferRaises q = true
    · rw [if_pos hb] at he
      simp at he
    · rw [if_neg hb] at he
      obtain ⟨a, ha, hpa⟩ := List.mem_filterMap.mp he
      cases a with
      | strId s => simp [processArea] at hpa
      | noGeom id => simp [processArea] at hpa
      | withGeom id g =>
        have hb2 := hbound _ ha
        simp only [areaBound, Bool.and_eq_true, decide_eq_true_eq] at hb2
        obtain ⟨h0, h1⟩ := hb2
        cases hpoly : g.polygonOk with
        | false => simp [processArea, hpoly] at hpa
        | true =>
          cases hint : g.intersectsBuffer with
          | false => simp [processArea, hpoly, hint] at hpa
          | true =>
            cases hproj : g.projectable with
            | false => simp [processArea, hpoly, hint, hproj] at hpa
            | true =>
              simp only [processArea, hpoly, hint, hproj, Bool.not_true,
                Bool.false_eq_true, if_false, Option.some.injEq] at hpa
              subst hpa
              by_cases ht : 0 < g.totalArea
              · simp only [if_pos ht]
                constructor
                · positivity
                · have hdiv : g.interArea / g.totalArea ≤ 1 :=
                    (div_le_one ht).mpr h1
                  nlinarith
              · simp [if_neg ht]
  · intro id g ha hb hpoly hint hproj htot
    unfold calculate_station_coverage
    rw [if_neg (by simp [hb])]
    apply List.mem_filterMap.mpr
    refine ⟨AreaInput.withGeom id g, ha, ?_⟩
    simp [processArea, hpoly, hint, hproj, htot]

/-- C3 witness: for the sample inputs — one half-covered area and one area
with zero projected total area — every reported percent is in `[0, 100]`,
and the zero-area zone is reported with percent 0. -/
theorem C3_witness :
    (∀ e ∈ calculate_station_coverage (fun _ => false) ⟨0, 0, 100⟩ sampleAreas,
       0 ≤ e.area_coverage_percent ∧ e.area_coverage_percent ≤ 100) ∧
    ({ id := some ['2'], area_coverage_percent := 0 } : RawCoverageEntry) ∈
      calculate_station_coverage (fun _ => false) ⟨0, 0, 100⟩ sampleAreas := by
  have hbound : ∀ a ∈ sampleAreas, areaBound a = true := by
    intro a ha
    simp only [sampleAreas, List.mem_cons, List.mem_singleton] at ha
    rcases ha with rfl | rfl | h
    · norm_num [areaBound]
    · norm_num [areaBound]
    · simp at h
  refine ⟨(C3_coverage_percent_in_range (fun _ => false) ⟨0, 0, 100⟩ sampleAreas hbound).1,
    (C3_coverage_percent_in_range (fun _ => false) ⟨0, 0, 100⟩ sampleAreas hbound).2
      (some ['2']) ⟨true, true, true, 0, 0⟩ ?_ rfl rfl rfl rfl rfl⟩
  exact List.mem_cons_of_mem _ (List.mem_cons_self _ _)

/-- C4 counterexample: for a query whose parameters are all malformed
(longitude 200 ∉ [-180,180], latitude 300 ∉ [-90,90], radius −100 ≤ 0),
`calculate_station_coverage` does not fail with any error surfaced to the
caller: its result is an ordinary list in every case — the normal coverage
list when the external buffer construction does not raise, and the empty
list (the catch-all `except` swallowing the exception) when it does.  No
`InvalidInputError` exists on any path, refuting the claim. -/
theorem C4_counterexample :
    calculate_station_coverage (fun _ => false) ⟨200, 300, -100⟩ oneGoodArea =
      [{ id := some ['1'], area_coverage_percent := 50 }] ∧
    calculate_station_coverage (fun _ => true) ⟨200, 300, -100⟩ oneGoodArea = [] := by
  constructor
  · simp only [calculate_station_coverage, oneGoodArea, Bool.false_eq_true, if_false,
      List.filterMap_cons, List.filterMap_nil, processArea, Bool.not_true,
      Bool.not_false, if_true]
    norm_num
  · rfl

/-- C4 amended: `calculate_station_coverage` performs no validation of the
radius or the center coordinates — its result depends on the query only
through the behaviour of the external buffer construction — and when that
construction raises, the top-level `except` returns the empty list instead
of surfacing any error to the caller. -/
theorem C4_amended_no_validation (bufferRaises : StationQuery → Bool)
    (q q2 : StationQuery) (areas : List AreaInput)
    (h : bufferRaises q = bufferRaises q2) :
    calculate_station_coverage bufferRaises q areas =
      calculate_station_coverage bufferRaises q2 areas ∧
    (bufferRaises q = true → calculate_station_coverage bufferRaises q areas = []) := by
  constructor
  · unfold calculate_station_coverage
    rw [h]
  · intro ht
    simp [calculate_station_coverage, ht]

/-- C4 amended witness: a well-formed query and the malformed query
(lon 200, lat 300, radius −100) produce identical results when the external
library behaves the same, and a raising buffer construction yields `[]`. -/
theorem C4_witness :
    (calculate_station_coverage (fun _ => false) ⟨-22, 64, 500⟩ oneGoodArea =
      calculate_station_coverage (fun _ => false) ⟨200, 300, -100⟩ oneGoodArea) ∧
    ((fun (_ : StationQuery) => false) ⟨-22, 64, 500⟩ = true →
      calculate_station_coverage (fun _ => false) ⟨-22, 64, 500⟩ oneGoodArea = []) :=
  C4_amended_no_validation (fun _ => false) ⟨-22, 64, 500⟩ ⟨200, 300, -100⟩
    oneGoodArea rfl

/-- C5: a failure while processing one area — polygon construction/repair
raising, or an unsupported geometry type reaching the projection — causes
only that single area to be skipped: the coverage result for the remaining
areas is exactly the result of the same query without the bad area, and the
computation as a whole returns normally. -/
theorem C5_bad_area_skipped (bufferRaises : StationQuery → Bool) (q : StationQuery)
    (pre post : List AreaInput) (bad : AreaInput)
    (h : areaProcessingFails bad = true) :
    calculate_station_coverage bufferRaises q (pre ++ bad :: post) =
      calculate_station_coverage bufferRaises q (pre ++ post) := by
  have hnone : processArea bad = none := by
    cases bad with
    | strId s => rfl
    | noGeom id => rfl
    | withGeom id g =>
      simp only [areaProcessingFails, Bool.or_eq_true, Bool.and_eq_true,
        Bool.not_eq_true'] at h
      rcases h with hpoly | ⟨hint, hproj⟩
      · simp [processArea, hpoly]
      · cases hpoly2 : g.polygonOk <;>
          simp [processArea, hpoly2, hint, hproj]
  unfold calculate_station_coverage
  by_cases hb : bufferRaises q = true
  · simp [hb]
  · simp only [Bool.not_eq_true] at hb
    simp [hb, List.filterMap_append, List.filterMap_cons, hnone]

/-- C5 witness: appending an area whose polygon construction fails to the
one-good-area query leaves the coverage result unchanged. -/
theorem C5_witness :
    calculate_station_coverage (fun _ => false) ⟨0, 0, 100⟩
        (oneGoodArea ++ AreaInput.withGeom none ⟨false, true, false, 0, 0⟩ :: []) =
      calculate_station_coverage (fun _ => false) ⟨0, 0, 100⟩ (oneGoodArea ++ []) :=
  C5_bad_area_skipped (fun _ => false) ⟨0, 0, 100⟩ oneGoodArea []
    (AreaInput.withGeom none ⟨false, true, false, 0, 0⟩) rfl

lemma cache_step_length_le {A B : Type} [DecidableEq A]
    (c : List (A × B)) (k : A) (v : B) (h : c.length ≤ 100) :
    (get_areas_within_radius c k v).length ≤ 100 := by
  unfold get_areas_within_radius
  cases hl : cacheLookup c k with
  | some w => exact h
  | none =>
    simp only
    split
    · rename_i hgt
      simp only [List.length_drop, List.length_append, List.length_singleton]
      simp only [List.length_append, List.length_singleton] at hgt
      omega
    · rename_i hle
      simp only [Nat.not_lt, List.length_append, List.length_singleton] at hle
      simpa using hle

lemma runQueries_foldl_le {A B : Type} [DecidableEq A] :
    ∀ (qs : List (A × B)) (c : List (A × B)), c.length ≤ 100 →
      (qs.foldl (fun c2 q => get_areas_within_radius c2 q.1 q.2) c).length ≤ 100
  | [], _, h => h
  | q :: t, c, h =>
    runQueries_foldl_le t _ (cache_step_length_le c q.1 q.2 h)

/-- C10: the memoization cache of `get_areas_within_radius`, keyed by exact
(point, radius), never exceeds 100 entries after any sequence of queries
starting from the empty cache, and an insertion that pushes it past 100
entries (a miss on a full 100-entry cache) deletes the 50 oldest entries —
`list(cache.keys())[:50]` in dict insertion order — leaving the 51 newest. -/
theorem C10_cache_capped (A B : Type) [DecidableEq A] :
    (∀ qs : List (A × B), (runQueries qs).length ≤ 100) ∧
    (∀ (c : List (A × B)) (k : A) (v : B),
       cacheLookup c k = none → c.length = 100 →
       get_areas_within_radius c k v = (c ++ [(k, v)]).drop 50 ∧
       (get_areas_within_radius c k v).length = 51) := by
  constructor
  · intro qs
    exact runQueries_foldl_le qs [] (by simp)
  · intro c k v hl hlen
    have hstep : get_areas_within_radius c k v = (c ++ [(k, v)]).drop 50 := by
      unfold get_areas_within_radius
      rw [hl]
      simp only
      rw [if_pos (by simp [hlen])]
    refine ⟨hstep, ?_⟩
    rw [hstep]
    simp [List.length_drop, hlen]

/-- C10 witness: on a concrete full cache of 100 entries, inserting a fresh
key drops the 50 oldest entries and leaves 51. -/
theorem C10_witness :
    get_areas_within_radius sampleCache 100 0 = (sampleCache ++ [(100, 0)]).drop 50 ∧
    (get_areas_within_radius sampleCache 100 0).length = 51 :=
  (C10_cache_capped ℕ ℕ).2 sampleCache 100 0 (by decide) (by decide)

/-- C6: every vertex of the buffer polygon `create_geodesic_buffer` builds
lies, in the azimuthal-equidistant model of the projection, at geodesic
distance exactly the requested radius from the center — in particular
within any error bound proportional to `1/N²` for the polygon's side count
`N`. -/
theorem C6_buffer_vertex_distance (r c s errK : ℝ) (N : ℕ)
    (hr : 0 < r) (hcs : c ^ 2 + s ^ 2 = 1) (hK : 0 ≤ errK) (hN : 0 < N) :
    geodesicDistToCenter (circlePoint r c s) = r ∧
    |geodesicDistToCenter (circlePoint r c s) - r| ≤ errK / (N : ℝ) ^ 2 := by
  have hd : geodesicDistToCenter (circlePoint r c s) = r := by
    show Real.sqrt ((r * c) ^ 2 + (r * s) ^ 2) = r
    have h1 : (r * c) ^ 2 + (r * s) ^ 2 = r ^ 2 := by nlinarith
    rw [h1, Real.sqrt_sq hr.le]
  refine ⟨hd, ?_⟩
  rw [hd, sub_self, abs_zero]
  have hN2 : (0 : ℝ) < (N : ℝ) ^ 2 := by positivity
  positivity

/-- C6 witness: the vertex at angle 0 of a 100 m buffer with 64 sides is at
geodesic distance exactly 100, within the bound `1/64²`. -/
theorem C6_witness :
    geodesicDistToCenter (circlePoint 100 1 0) = 100 ∧
    |geodesicDistToCenter (circlePoint 100 1 0) - 100| ≤ 1 / (64 : ℝ) ^ 2 :=
  C6_buffer_vertex_distance 100 1 0 1 64 (by norm_num) (by norm_num)
    (by norm_num) (by norm_num)

/-- C7: for all polygons, the intersection area `calculate_area_coverage`
returns is at most the total area it returns, and that total is the subject
polygon's own projected area (not the clip's), for every reference latitude
and local projection. -/
theorem C7_intersection_le_total (laea : ℚ → ℝ × ℝ → ℝ × ℝ) (lat : ℚ)
    (geom1 geom2 : Set (ℝ × ℝ)) :
    (calculate_area_coverage laea lat geom1 geom2).1 ≤
      (calculate_area_coverage laea lat geom1 geom2).2 ∧
    (calculate_area_coverage laea lat geom1 geom2).2 =
      MeasureTheory.volume (laea lat '' geom1) :=
  ⟨MeasureTheory.measure_mono Set.inter_subset_left, rfl⟩

end Dataton
